import Mathlib

/-
Verification of the unblink worker example (worker-qwen3-vl).

The development shallowly embeds the worker's session protocol and
temporal-batch reconstruction logic:
  * the timestamp derivation of test_custom_fps.py (index padding,
    FPS mapping, merge-group averaging), over exact rationals;
  * frame download and the batch processor of
    events/process_frame_batch_event.py, with the network modelled as an
    oracle from frame uuid to HTTP outcome, image decoding treated as the
    identity on the downloaded payload, and inference modelled as an
    opaque function from the constructed inference call to a text output;
  * the registration exchange and the receive loop of main.py, with
    exceptions modelled explicitly via Except and an explicit loop
    outcome (clean close versus an uncaught batch error).
-/

deriving instance DecidableEq for Except

namespace Unblink

/- ===== TemporalContextBuilder: computeTimestamps =====
   Source: test_custom_fps.py, lines 93-107. -/

/-- The padded index sequence: `frames_indices = list(range(num_frames))`, then
`if len(frames_indices) % merge_size != 0: frames_indices.extend([frames_indices[-1]] * (merge_size - len(frames_indices) % merge_size))`. -/
def padIndices (n m : Nat) : List Nat :=
  if n % m ≠ 0 then
    List.range n ++ List.replicate (m - n % m) (n - 1)
  else
    List.range n

/-- The raw timestamps: `timestamps = [idx / effective_fps for idx in frames_indices]`. -/
def rawTimestamps (n : Nat) (fps : ℚ) (m : Nat) : List ℚ :=
  (padIndices n m).map (fun i : Nat => (i : ℚ) / fps)

/-- The merge-group averaging of test_custom_fps.py:
`averaged_timestamps = [(timestamps[i] + timestamps[i + merge_size - 1]) / 2 for i in range(0, len(timestamps), merge_size)]`.
The Python `range(0, len, m)` visits `(len + m - 1) / m` start indices `i = g * m`. -/
def computeTimestamps (n : Nat) (fps : ℚ) (m : Nat) : List ℚ :=
  (List.range (((rawTimestamps n fps m).length + m - 1) / m)).map
    (fun g => ((rawTimestamps n fps m).getD (g * m) 0
      + (rawTimestamps n fps m).getD (g * m + m - 1) 0) / 2)

/-- Modelled from the spec: the index sequence `0..n-1` padded on the right by
repeating the last index until its length is a multiple of `m`. -/
def padSpec (n m : Nat) : List Nat :=
  List.range n ++ List.replicate ((m - n % m) % m) (n - 1)

/-- Partition into consecutive groups of size `m` (returns `[]` for `m = 0`;
the spec only uses it with `m ≥ 1` on lists whose length is a multiple of `m`). -/
def chunks (m : Nat) (l : List ℚ) : List (List ℚ) :=
  if _h : l = [] ∨ m = 0 then []
  else l.take m :: chunks m (l.drop m)
termination_by l.length
decreasing_by
  simp only [List.length_drop]
  have hl : l ≠ [] := fun hnil => _h (Or.inl hnil)
  have hpos : 0 < l.length := List.length_pos.mpr hl
  have hm : m ≠ 0 := fun hm0 => _h (Or.inr hm0)
  omega

/-- Modelled from the spec: pad `0..n-1` to a multiple of `m`, map each padded
index `i` to `i / f`, partition into consecutive groups of size `m`, and return
for each group the arithmetic mean of the group's first and last element. -/
def computeTimestampsSpec (n : Nat) (fps : ℚ) (m : Nat) : List ℚ :=
  (chunks m ((padSpec n m).map (fun i : Nat => (i : ℚ) / fps))).map
    (fun g => (g.headD 0 + g.getLastD 0) / 2)

/- ===== FrameFetcher: download_frame =====
   Source: events/process_frame_batch_event.py, lines 9-24. -/

/-- An HTTP response as seen by `requests.get`: a status code and a body
(raw bytes, modelled as a list of byte values). -/
structure HttpResponse where
  status : Nat
  content : List Nat
deriving DecidableEq

/-- Outcome of one `requests.get` call: a response, or a raised exception
(network error / timeout). -/
inductive FetchOutcome where
  | response (r : HttpResponse)
  | error
deriving DecidableEq

/-- `download_frame`: returns `response.content` on status 200, `None` on any
other status or on a raised exception. -/
def download_frame (o : FetchOutcome) : Option (List Nat) :=
  match o with
  | .response r => if r.status = 200 then some r.content else none
  | .error => none

/-- The per-frame contribution of the download loop: the frame is kept only
when `jpeg_data` is truthy in Python (`if jpeg_data:`), i.e. the download
returned a value and that value is non-empty bytes. -/
def keptFrame (o : FetchOutcome) : Option (List Nat) :=
  match download_frame o with
  | some d => if d.isEmpty then none else some d
  | none => none

/-- The download loop of process_frame_batch_event (lines 54-59): iterate the
requested frame uuids in order and append each truthy downloaded payload. -/
def fetchLoop (net : String → FetchOutcome) (frames : List String) : List (List Nat) :=
  frames.filterMap (fun u => keptFrame (net u))

/- ===== BatchProcessor: process_frame_batch_event =====
   Source: events/process_frame_batch_event.py, lines 27-144. -/

/-- The `metadata` dict of a frame_batch event; each key may be absent.
Code defaults: `duration_seconds` 0, `start_time` 0, `fps` 2.0. -/
structure Metadata where
  duration_seconds : Option ℚ
  start_time : Option ℚ
  fps : Option ℚ
deriving DecidableEq

/-- The `data` payload of a frame_batch event: `frames`, `service_id`,
`metadata` (code defaults: `[]`, `None`, `{}`). -/
structure FrameBatchEvent where
  frames : List String
  service_id : Option String
  metadata : Metadata
deriving DecidableEq

/-- Round a rational to the nearest integer, ties to even — the rounding used
by Python `format(x, ".1f")` on the scaled value. -/
def roundHalfEven (q : ℚ) : ℤ :=
  if q - ⌊q⌋ < 1/2 then ⌊q⌋
  else if 1/2 < q - ⌊q⌋ then ⌊q⌋ + 1
  else if ⌊q⌋ % 2 = 0 then ⌊q⌋ else ⌊q⌋ + 1

/-- One-decimal fixed-point rendering of a non-negative rational, as produced
by the Python f-string conversion `{x:.1f}`. -/
def fmt1 (q : ℚ) : String :=
  toString (roundHalfEven (10 * q) / 10) ++ "." ++
    toString ((roundHalfEven (10 * q)).natAbs % 10)

/-- The temporal preamble of process_frame_batch_event (lines 75-81): for
`start_time > 0` an f-string naming the span with one-decimal precision,
otherwise the empty string. -/
def temporal_context (start_time duration_seconds : ℚ) : String :=
  if 0 < start_time then
    "This video segment spans from " ++ fmt1 start_time ++ "s to "
      ++ fmt1 (start_time + duration_seconds) ++ "s. "
  else
    ""

/-- The fixed instruction appended to the temporal preamble (line 94). -/
def instructionText : String :=
  "Analyze this video sequence. Describe any events, activities, or changes that occur."

/-- The data handed to the inference capability: the downloaded frames passed
as video, the `raw_fps` value, and the full text prompt. -/
structure InferenceCall where
  video : List (List Nat)
  raw_fps : ℚ
  prompt : String
deriving DecidableEq

/-- The summary dict built at lines 135-141. -/
structure Summary where
  summary : String
  service_id : Option String
  frame_count : Nat
  duration_seconds : ℚ
  created_at : String
deriving DecidableEq

/-- Errors raised by the batch processor: `ValueError("No frames downloaded")`
at line 62. -/
inductive ProcError where
  | noFramesDownloaded
deriving DecidableEq

/-- The inference call constructed at lines 67-97: fps is read from metadata
with default 2.0 (line 72), the prompt is the temporal preamble followed by
the fixed instruction. -/
def processCall (net : String → FetchOutcome) (event : FrameBatchEvent) : InferenceCall :=
  { video := fetchLoop net event.frames
    raw_fps := event.metadata.fps.getD 2
    prompt := temporal_context (event.metadata.start_time.getD 0)
        (event.metadata.duration_seconds.getD 0) ++ instructionText }

/-- The summary built at lines 135-141; `infer` is the opaque inference
capability (model.generate + batch_decode), `now` the completion timestamp. -/
def processSummary (net : String → FetchOutcome) (infer : InferenceCall → String)
    (now : String) (event : FrameBatchEvent) : Summary :=
  { summary := "Video analysis: " ++ infer (processCall net event)
    service_id := event.service_id
    frame_count := (fetchLoop net event.frames).length
    duration_seconds := event.metadata.duration_seconds.getD 0
    created_at := now }

/-- `process_frame_batch_event`: download all frames, raise
`ValueError("No frames downloaded")` when none survived, otherwise run
inference and return the summary dict. -/
def process_frame_batch_event (net : String → FetchOutcome)
    (infer : InferenceCall → String) (now : String)
    (event : FrameBatchEvent) : Except ProcError (InferenceCall × Summary) :=
  if (fetchLoop net event.frames).isEmpty then
    .error .noFramesDownloaded
  else
    .ok (processCall net event, processSummary net infer now event)

/- ===== RelaySession: register and listen =====
   Source: main.py, lines 39-78. -/

/-- The decoded registration response: its `type` field, and the
`data.worker_id` / `data.key` fields read in the `registered` branch. -/
structure RegResponse where
  type : String
  worker_id : String
  key : String
deriving DecidableEq

/-- The mutable identity fields of CVWorker: both start as `None`. -/
structure WorkerState where
  worker_id : Option String
  worker_key : Option String
deriving DecidableEq

/-- Transport-level exceptions: `websockets.exceptions.ConnectionClosed`. -/
inductive ConnException where
  | connectionClosed
deriving DecidableEq

/-- `CVWorker.register` (lines 39-53): send the registration message, await
one response. `none` models the connection closing before a response arrives
(`self.ws.recv()` raises). On a `registered` response both fields are set; on
any other type the response is only printed and the method returns normally. -/
def register (st : WorkerState) (resp : Option RegResponse) :
    Except ConnException WorkerState :=
  match resp with
  | none => .error .connectionClosed
  | some r =>
    if r.type = "registered" then
      .ok { worker_id := some r.worker_id, worker_key := some r.key }
    else
      .ok st

/-- Python truthiness of `self.worker_key` (an optional string): `None` and
the empty string are falsy. -/
def keyTruthy : Option String → Bool
  | none => false
  | some s => !s.isEmpty

/-- One decoded inbound websocket message: its `type` field and, for
frame_batch messages, the decoded `data` payload (`none` models a missing or
falsy `data.get("data")`). -/
structure InMsg where
  type : String
  data : Option FrameBatchEvent
deriving DecidableEq

/-- How the receive loop ends: the connection closes (normal end of the
`async for`, or `ConnectionClosed` caught at line 77), or an exception raised
by batch processing propagates out of the loop uncaught. -/
inductive ListenEnd where
  | closed
  | crashed (e : ProcError)
deriving DecidableEq

/-- Observable behaviour of one run of the receive loop: the summaries passed
to `emit_event`, the frame uuids whose download was attempted, and how the
loop ended. -/
structure ListenResult where
  emissions : List Summary
  fetched : List String
  outcome : ListenEnd
deriving DecidableEq

/-- `CVWorker.listen` (lines 55-78) over a finite inbound message sequence:
a frame_batch message is dispatched only when `self.worker_key` is truthy and
its `data` payload is truthy; the batch is processed and its summary passed to
`emit_event` (whose own failures are caught internally, line 96). The `try`
around the loop catches only `ConnectionClosed`, so an error raised by
`process_frame_batch_event` terminates the loop. -/
def listen (key : Option String) (net : String → FetchOutcome)
    (infer : InferenceCall → String) (now : String) : List InMsg → ListenResult
  | [] => { emissions := [], fetched := [], outcome := .closed }
  | msg :: rest =>
    if msg.type = "frame_batch" ∧ keyTruthy key = true then
      match msg.data with
      | some ev =>
        match process_frame_batch_event net infer now ev with
        | .ok (_, s) =>
          let r := listen key net infer now rest
          { emissions := s :: r.emissions
            fetched := ev.frames ++ r.fetched
            outcome := r.outcome }
        | .error e =>
          { emissions := [], fetched := ev.frames, outcome := .crashed e }
      | none => listen key net infer now rest
    else
      listen key net infer now rest

/- ===== Concrete scenarios used by witnesses and counterexamples ===== -/

/-- An opaque inference capability producing the empty description. -/
def infer0 : InferenceCall → String := fun _ => ""

/-- The initial worker state: no id, no key. -/
def st0 : WorkerState := { worker_id := none, worker_key := none }

/-- A registration response with a non-success type. -/
def regBad : RegResponse := { type := "error", worker_id := "w", key := "k" }

/-- A network where frame "a" raises on download and every other frame
downloads one byte successfully. -/
def net3 : String → FetchOutcome :=
  fun u => if u = "a" then .error else .response { status := 200, content := [1] }

/-- Metadata with duration 45s, start 0, no fps key. -/
def metaNoFps : Metadata :=
  { duration_seconds := some 45, start_time := some 0, fps := none }

/-- A batch whose single frame "a" fails to download under `net3`. -/
def ev3a : FrameBatchEvent :=
  { frames := ["a"], service_id := some "svc", metadata := metaNoFps }

/-- A batch whose single frame "b" downloads fine under `net3`. -/
def ev3b : FrameBatchEvent :=
  { frames := ["b"], service_id := some "svc", metadata := metaNoFps }

/-- Two inbound frame_batch messages: first the failing batch, then a good one. -/
def msgs3 : List InMsg :=
  [{ type := "frame_batch", data := some ev3a },
   { type := "frame_batch", data := some ev3b }]

/-- A network where frames "f2", "f5", "f7" fail and the rest succeed. -/
def net5 : String → FetchOutcome :=
  fun u => if u = "f2" ∨ u = "f5" ∨ u = "f7" then .error
    else .response { status := 200, content := [1] }

/-- A batch requesting ten frames, of which seven succeed under `net5`. -/
def ev5 : FrameBatchEvent :=
  { frames := ["f0", "f1", "f2", "f3", "f4", "f5", "f6", "f7", "f8", "f9"]
    service_id := some "svc", metadata := metaNoFps }

/-- The inference call and summary produced for `ev5` under `net5`. -/
def pair5 : InferenceCall × Summary :=
  ({ video := List.replicate 7 [1], raw_fps := 2, prompt := instructionText },
   { summary := "Video analysis: ", service_id := some "svc", frame_count := 7
     duration_seconds := 45, created_at := "t" })

/-- A network where every frame downloads one byte successfully. -/
def netOk : String → FetchOutcome :=
  fun _ => .response { status := 200, content := [1] }

/-- A ten-frame batch with duration 45s and no fps in its metadata. -/
def ev9 : FrameBatchEvent :=
  { frames := ["f0", "f1", "f2", "f3", "f4", "f5", "f6", "f7", "f8", "f9"]
    service_id := some "svc", metadata := metaNoFps }

/-- The inference call and summary produced for `ev9` under `netOk`. -/
def pair9 : InferenceCall × Summary :=
  ({ video := List.replicate 10 [1], raw_fps := 2, prompt := instructionText },
   { summary := "Video analysis: ", service_id := some "svc", frame_count := 10
     duration_seconds := 45, created_at := "t" })

/-- A network where frame "z" answers 200 with a zero-byte body and every
other frame downloads one byte successfully. -/
def net10 : String → FetchOutcome :=
  fun u => if u = "z" then .response { status := 200, content := [] }
    else .response { status := 200, content := [1] }

/-- A batch requesting the zero-byte frame "z" and a normal frame "w". -/
def ev10 : FrameBatchEvent :=
  { frames := ["z", "w"], service_id := some "svc", metadata := metaNoFps }

end Unblink

namespace Unblink

/- ===== Helper lemmas: chunking and padding arithmetic ===== -/

lemma chunks_nil (m : Nat) : chunks m [] = [] := by
  rw [chunks]
  simp

lemma chunks_cons (m : Nat) (l : List ℚ) (hl : l ≠ []) (hm : m ≠ 0) :
    chunks m l = l.take m :: chunks m (l.drop m) := by
  rw [chunks]
  rw [dif_neg]
  simp [hl, hm]

lemma headD_take (l : List ℚ) (m : Nat) (hm : 0 < m) :
    (l.take m).headD 0 = l.getD 0 0 := by
  obtain ⟨m', rfl⟩ := Nat.exists_eq_succ_of_ne_zero (Nat.pos_iff_ne_zero.mp hm)
  cases l <;> simp [List.getD]

lemma getLastD_take (l : List ℚ) (m : Nat) (hm : 0 < m) (hle : m ≤ l.length) :
    (l.take m).getLastD 0 = l.getD (m - 1) 0 := by
  rw [List.getLastD_eq_getLast?, List.getLast?_eq_getElem?, List.getD_eq_getElem?_getD]
  rw [List.length_take_of_le hle]
  rw [List.getElem?_take_of_lt (by omega)]

lemma getD_drop (l : List ℚ) (m j : Nat) :
    (l.drop m).getD j 0 = l.getD (m + j) 0 := by
  rw [List.getD_eq_getElem?_getD, List.getD_eq_getElem?_getD, List.getElem?_drop]

lemma chunks_map_meanFL (m : Nat) (hm : 0 < m) :
    ∀ (k : Nat) (l : List ℚ), l.length = m * k →
    (chunks m l).map (fun g => (g.headD 0 + g.getLastD 0) / 2)
      = (List.range k).map (fun g => (l.getD (g * m) 0 + l.getD (g * m + m - 1) 0) / 2) := by
  intro k
  induction k with
  | zero =>
    intro l hl
    have hnil : l = [] := List.length_eq_zero.mp (by simpa using hl)
    subst hnil
    rw [chunks_nil]
    simp
  | succ k ih =>
    intro l hl
    have hmlen : m ≤ l.length := by
      rw [hl]
      exact Nat.le_mul_of_pos_right m (Nat.succ_pos k)
    have hl0 : l ≠ [] := by
      intro hnil
      rw [hnil] at hmlen
      simp at hmlen
      omega
    rw [chunks_cons m l hl0 (Nat.pos_iff_ne_zero.mp hm)]
    rw [List.map_cons, List.range_succ_eq_map, List.map_cons, List.map_map]
    congr 1
    · rw [headD_take l m hm, getLastD_take l m hm hmlen]
      simp
    · have hdlen : (l.drop m).length = m * k := by
        rw [List.length_drop, hl, Nat.mul_succ, Nat.add_sub_cancel]
      rw [ih (l.drop m) hdlen]
      apply List.map_congr_left
      intro a _
      simp only [Function.comp_apply]
      rw [getD_drop, getD_drop]
      have e1 : m + a * m = Nat.succ a * m := by
        rw [Nat.succ_mul]
        omega
      have e2 : m + (a * m + m - 1) = Nat.succ a * m + m - 1 := by
        rw [Nat.succ_mul]
        have hp : ∃ p, a * m = p := ⟨_, rfl⟩
        obtain ⟨p, hp⟩ := hp
        rw [hp]
        omega
      rw [e1, e2]

lemma padIndices_eq_padSpec (n m : Nat) (hm : 0 < m) : padIndices n m = padSpec n m := by
  unfold padIndices padSpec
  by_cases h : n % m = 0
  · simp [h, Nat.mod_self]
  · have h2 : m - n % m < m := by
      have h3 := Nat.mod_lt n hm
      omega
    rw [if_pos h, Nat.mod_eq_of_lt h2]

lemma length_padIndices (n m : Nat) :
    (padIndices n m).length = if n % m = 0 then n else n + (m - n % m) := by
  unfold padIndices
  by_cases h : n % m = 0 <;> simp [h]

lemma mul_ceil_div_add (m K : Nat) (hm : 0 < m) : (m * K + m - 1) / m = K := by
  have hp : ∃ p, m * K = p := ⟨_, rfl⟩
  obtain ⟨p, hp⟩ := hp
  have e1 : m * K + m - 1 = m * K + (m - 1) := by
    rw [hp]
    omega
  rw [e1, Nat.mul_add_div hm]
  have e2 : (m - 1) / m = 0 := Nat.div_eq_of_lt (by omega)
  rw [e2, Nat.add_zero]

lemma padded_len (n m : Nat) (hm : 0 < m) :
    (padIndices n m).length = m * ((n + m - 1) / m) := by
  rw [length_padIndices]
  have hqr := Nat.div_add_mod n m
  have hr : n % m < m := Nat.mod_lt n hm
  by_cases h : n % m = 0
  · rw [if_pos h]
    have hn : n = m * (n / m) := by omega
    rw [hn, mul_ceil_div_add m (n / m) hm]
  · rw [if_neg h]
    have hp : ∃ p, m * (n / m) = p := ⟨_, rfl⟩
    obtain ⟨p, hp⟩ := hp
    have e1 : n + m - 1 = m * (n / m + 1) + (n % m - 1) := by
      rw [Nat.mul_succ, hp]
      omega
    have e2 : (n % m - 1) / m = 0 := Nat.div_eq_of_lt (by omega)
    rw [e1, Nat.mul_add_div hm, e2, Nat.add_zero, Nat.mul_succ, hp]
    omega

lemma computeTimestamps_eq_spec (n m : Nat) (fps : ℚ) (hm : 0 < m) :
    computeTimestamps n fps m = computeTimestampsSpec n fps m := by
  unfold computeTimestamps computeTimestampsSpec rawTimestamps
  rw [← padIndices_eq_padSpec n m hm]
  have hlen : ((padIndices n m).map (fun i : Nat => (i : ℚ) / fps)).length
      = m * ((n + m - 1) / m) := by
    rw [List.length_map, padded_len n m hm]
  rw [chunks_map_meanFL m hm ((n + m - 1) / m) _ hlen, hlen]
  rw [mul_ceil_div_add m ((n + m - 1) / m) hm]

lemma computeTimestamps_length (n m : Nat) (fps : ℚ) (hm : 0 < m) :
    (computeTimestamps n fps m).length = (n + m - 1) / m := by
  unfold computeTimestamps rawTimestamps
  rw [List.length_map, List.length_range, List.length_map, padded_len n m hm]
  rw [mul_ceil_div_add m ((n + m - 1) / m) hm]

lemma add_pred_div_eq_ceil (n m : Nat) (hn : 0 < n) (hm : 0 < m) :
    ((n + m - 1) / m : Nat) = ⌈(n : ℚ) / (m : ℚ)⌉₊ := by
  have h1 := Nat.div_add_mod (n + m - 1) m
  have h2 : (n + m - 1) % m < m := Nat.mod_lt _ hm
  have hp : ∃ p, m * ((n + m - 1) / m) = p := ⟨_, rfl⟩
  obtain ⟨p, hp⟩ := hp
  rw [hp] at h1
  have hKne : (n + m - 1) / m ≠ 0 := by
    intro hK0
    rw [hK0, Nat.mul_zero] at hp
    omega
  obtain ⟨K', hK'⟩ := Nat.exists_eq_succ_of_ne_zero hKne
  have hq : ∃ q, m * K' = q := ⟨_, rfl⟩
  obtain ⟨q, hq⟩ := hq
  have hpq : q + m = p := by
    rw [← hp, hK', Nat.mul_succ, hq]
  have hqn : K' * m < n := by
    rw [Nat.mul_comm, hq]
    omega
  have hnle : n ≤ Nat.succ K' * m := by
    rw [Nat.succ_mul, Nat.mul_comm K' m, hq]
    omega
  rw [hK']
  symm
  rw [Nat.ceil_eq_iff (Nat.succ_ne_zero K')]
  constructor
  · rw [Nat.succ_sub_one]
    rw [lt_div_iff₀ (by positivity : (0 : ℚ) < (m : ℚ))]
    exact_mod_cast hqn
  · rw [div_le_iff₀ (by positivity : (0 : ℚ) < (m : ℚ))]
    exact_mod_cast hnle

/- ===== Helper lemmas: batch processor and receive loop ===== -/

lemma process_ok_of_nonempty (net : String → FetchOutcome) (infer : InferenceCall → String)
    (now : String) (ev : FrameBatchEvent) (h : fetchLoop net ev.frames ≠ []) :
    process_frame_batch_event net infer now ev
      = .ok (processCall net ev, processSummary net infer now ev) := by
  unfold process_frame_batch_event
  rw [if_neg]
  simp [h]

lemma process_err_of_empty (net : String → FetchOutcome) (infer : InferenceCall → String)
    (now : String) (ev : FrameBatchEvent) (h : fetchLoop net ev.frames = []) :
    process_frame_batch_event net infer now ev = .error .noFramesDownloaded := by
  unfold process_frame_batch_event
  rw [if_pos]
  simp [h]

lemma listen_none (net : String → FetchOutcome) (infer : InferenceCall → String)
    (now : String) (msgs : List InMsg) :
    listen none net infer now msgs
      = { emissions := [], fetched := [], outcome := .closed } := by
  induction msgs with
  | nil => rfl
  | cons msg rest ih =>
    simp only [listen]
    rw [if_neg (by simp [keyTruthy])]
    exact ih

end Unblink

namespace Unblink

/- ===== Claim theorems ===== -/

unseal Rat.mul Rat.inv Rat.add Rat.sub in
lemma concreteTimestamps10 :
    computeTimestamps 10 (1/5) 2 = [5/2, 25/2, 45/2, 65/2, 85/2] := by decide

/-- C1: for every frame count n >= 1, effective FPS f > 0 and merge group size
m >= 1, computeTimestamps pads the index sequence 0..n-1 on the right by
repeating the last index until its length is a multiple of m, maps each padded
index i to i/f, partitions into consecutive groups of size m, and returns for
each group the arithmetic mean of that group's first and last element (the
chunk-based computeTimestampsSpec); concretely, for n=10, effectiveFps=0.2 and
m=2 the output is [2.5, 12.5, 22.5, 32.5, 42.5]. -/
theorem C1_computeTimestamps (n m : Nat) (f : ℚ) (hn : 1 ≤ n) (hf : 0 < f) (hm : 1 ≤ m) :
    computeTimestamps n f m = computeTimestampsSpec n f m
      ∧ computeTimestamps 10 (1/5) 2 = [5/2, 25/2, 45/2, 65/2, 85/2] :=
  ⟨computeTimestamps_eq_spec n m f hm, concreteTimestamps10⟩

theorem C1_witness :
    (1 ≤ 10 ∧ (0:ℚ) < 1/5 ∧ 1 ≤ 2)
      ∧ (computeTimestamps 10 (1/5) 2 = computeTimestampsSpec 10 (1/5) 2
        ∧ computeTimestamps 10 (1/5) 2 = [5/2, 25/2, 45/2, 65/2, 85/2]) :=
  ⟨⟨by norm_num, by norm_num, by norm_num⟩,
   C1_computeTimestamps 10 2 (1/5) (by norm_num) (by norm_num) (by norm_num)⟩

/-- C2: for every frame count n >= 1 and merge group size m >= 1 (and any
effective FPS), computeTimestamps returns exactly ceil(n/m) timestamps,
i.e. (n + m - 1) / m of them. -/
theorem C2_length (n m : Nat) (f : ℚ) (hn : 1 ≤ n) (hm : 1 ≤ m) :
    (computeTimestamps n f m).length = (n + m - 1) / m
      ∧ (computeTimestamps n f m).length = ⌈(n : ℚ) / (m : ℚ)⌉₊ := by
  have h := computeTimestamps_length n m f hm
  exact ⟨h, by rw [h, add_pred_div_eq_ceil n m hn hm]⟩

theorem C2_witness :
    (1 ≤ 10 ∧ 1 ≤ 2)
      ∧ ((computeTimestamps 10 (1/5) 2).length = (10 + 2 - 1) / 2
        ∧ (computeTimestamps 10 (1/5) 2).length = ⌈(10 : ℚ) / (2 : ℚ)⌉₊) :=
  ⟨⟨by norm_num, by norm_num⟩, C2_length 10 2 (1/5) (by norm_num) (by norm_num)⟩

/-- C3 counterexample: with a truthy worker key, a batch whose only frame
fails to download raises the empty-batch error, and that error terminates the
receive loop: the following good batch is never processed and nothing is
emitted, refuting "a frame-level or batch-level error ... never terminates the
session's receive loop". -/
theorem C3_counterexample :
    listen (some "k") net3 infer0 "t" msgs3
      = { emissions := [], fetched := ["a"], outcome := .crashed .noFramesDownloaded } := by
  decide

/-- C3 amended: per-frame download failures and emission failures never
terminate the receive loop — if every dispatched batch retains at least one
downloaded frame the loop ends with a clean close — but the batch-level
empty-batch error (ValueError, raised when zero frames are fetched) is not
caught by the loop, which handles only ConnectionClosed, and terminates the
session at that batch. -/
theorem C3_error_propagation (key : Option String) (net : String → FetchOutcome)
    (infer : InferenceCall → String) (now : String) :
    (∀ msgs : List InMsg,
      (∀ msg ∈ msgs, msg.type = "frame_batch" → keyTruthy key = true →
        ∀ ev, msg.data = some ev → fetchLoop net ev.frames ≠ []) →
      (listen key net infer now msgs).outcome = .closed)
    ∧ (∀ (ev : FrameBatchEvent) (rest : List InMsg), keyTruthy key = true →
        fetchLoop net ev.frames = [] →
        listen key net infer now ({ type := "frame_batch", data := some ev } :: rest)
          = { emissions := [], fetched := ev.frames
              outcome := .crashed .noFramesDownloaded }) := by
  constructor
  · intro msgs
    induction msgs with
    | nil =>
      intro _
      rfl
    | cons msg rest ih =>
      intro h
      have hrest : ∀ m ∈ rest, m.type = "frame_batch" → keyTruthy key = true →
          ∀ ev, m.data = some ev → fetchLoop net ev.frames ≠ [] :=
        fun m hm => h m (List.mem_cons_of_mem msg hm)
      simp only [listen]
      by_cases hc : msg.type = "frame_batch" ∧ keyTruthy key = true
      · rw [if_pos hc]
        cases hd : msg.data with
        | none => exact ih hrest
        | some ev =>
          have hne := h msg (List.mem_cons_self msg rest) hc.1 hc.2 ev hd
          have hpr := process_ok_of_nonempty net infer now ev hne
          simp only [hpr]
          exact ih hrest
      · rw [if_neg hc]
        exact ih hrest
  · intro ev rest hk hempty
    simp only [listen]
    rw [if_pos ⟨trivial, hk⟩]
    simp only [process_err_of_empty net infer now ev hempty]

theorem C3_witness :
    (keyTruthy (some "k") = true ∧ fetchLoop net3 ev3a.frames = [])
    ∧ ((listen (some "k") net3 infer0 "t" [{ type := "frame_batch", data := some ev3b }]).outcome
        = .closed
      ∧ listen (some "k") net3 infer0 "t" ({ type := "frame_batch", data := some ev3a } :: [])
        = { emissions := [], fetched := ev3a.frames
            outcome := .crashed .noFramesDownloaded }) :=
  ⟨⟨by decide, by decide⟩,
   ⟨(C3_error_propagation (some "k") net3 infer0 "t").1
      [{ type := "frame_batch", data := some ev3b }] (by decide),
    (C3_error_propagation (some "k") net3 infer0 "t").2 ev3a [] (by decide) (by decide)⟩⟩

/-- C4: for every frame-batch event in which every per-frame fetch fails,
batch processing fails with the empty-batch error, no summary is produced,
and no emission call occurs for that batch. -/
theorem C4_empty_batch (net : String → FetchOutcome) (infer : InferenceCall → String)
    (now : String) (ev : FrameBatchEvent) (key : Option String)
    (h : ∀ u ∈ ev.frames, keptFrame (net u) = none) :
    process_frame_batch_event net infer now ev = .error .noFramesDownloaded
    ∧ (listen key net infer now [{ type := "frame_batch", data := some ev }]).emissions
        = [] := by
  have hempty : fetchLoop net ev.frames = [] := by
    unfold fetchLoop
    rw [List.filterMap_eq_nil_iff]
    exact h
  refine ⟨process_err_of_empty net infer now ev hempty, ?_⟩
  simp only [listen]
  by_cases hk : keyTruthy key = true
  · rw [if_pos ⟨trivial, hk⟩]
    simp only [process_err_of_empty net infer now ev hempty]
  · rw [if_neg (fun hcc => hk hcc.2)]

theorem C4_witness :
    (∀ u ∈ ev3a.frames, keptFrame (net3 u) = none)
    ∧ (process_frame_batch_event net3 infer0 "t" ev3a = .error .noFramesDownloaded
      ∧ (listen (some "k") net3 infer0 "t"
          [{ type := "frame_batch", data := some ev3a }]).emissions = []) :=
  ⟨by decide, C4_empty_batch net3 infer0 "t" ev3a (some "k") (by decide)⟩

/-- C5: every summary produced by the batch processor counts the successfully
downloaded frames, not the requested frame uuids, so frame_count never exceeds
the number of requested frames. -/
theorem C5_frame_count (net : String → FetchOutcome) (infer : InferenceCall → String)
    (now : String) (ev : FrameBatchEvent) (p : InferenceCall × Summary)
    (h : process_frame_batch_event net infer now ev = .ok p) :
    p.2.frame_count = (fetchLoop net ev.frames).length
    ∧ p.2.frame_count ≤ ev.frames.length := by
  unfold process_frame_batch_event at h
  by_cases hc : (fetchLoop net ev.frames).isEmpty
  · rw [if_pos hc] at h
    exact absurd h (by simp)
  · rw [if_neg hc] at h
    have hp : p = (processCall net ev, processSummary net infer now ev) :=
      (Except.ok.inj h).symm
    subst hp
    refine ⟨rfl, ?_⟩
    simpa [processSummary, fetchLoop] using
      List.length_filterMap_le (fun u => keptFrame (net u)) ev.frames

theorem C5_witness :
    process_frame_batch_event net5 infer0 "t" ev5 = .ok pair5
    ∧ pair5.2.frame_count = 7 ∧ ev5.frames.length = 10
    ∧ (pair5.2.frame_count = (fetchLoop net5 ev5.frames).length
      ∧ pair5.2.frame_count ≤ ev5.frames.length) :=
  ⟨by decide, by decide, by decide,
   C5_frame_count net5 infer0 "t" ev5 pair5 (by decide)⟩

/-- C6 counterexample: a registration response whose type is not "registered"
does not make register fail — it returns normally (merely printing the raw
response) with the worker state unchanged, refuting "register() fails with
RegistrationError whenever the relay's response ... has a non-success type". -/
theorem C6_counterexample : register st0 (some regBad) = .ok st0 := by
  decide

/-- C6 amended: register raises nothing on a non-success response type: it
returns normally leaving worker_id/worker_key unpopulated; only a connection
that closes before a response arrives propagates as the transport's
ConnectionClosed exception (the code defines no RegistrationError). -/
theorem C6_register_behaviour (st : WorkerState) (r : RegResponse)
    (h : r.type ≠ "registered") :
    register st (some r) = .ok st
    ∧ register st none = .error .connectionClosed := by
  refine ⟨?_, rfl⟩
  have hr : register st (some r)
      = if r.type = "registered" then
          Except.ok { worker_id := some r.worker_id, worker_key := some r.key }
        else Except.ok st := rfl
  rw [hr, if_neg h]

theorem C6_witness :
    regBad.type ≠ "registered"
    ∧ (register st0 (some regBad) = .ok st0
      ∧ register st0 none = .error .connectionClosed) :=
  ⟨by decide, C6_register_behaviour st0 regBad (by decide)⟩

/-- C7: a registration response whose type is not "registered" leaves
worker_id and worker_key unpopulated, and while the worker key is unpopulated
every inbound message — in particular every frame_batch event — is ignored:
no download is attempted, nothing is emitted, and the loop closes cleanly. -/
theorem C7_unregistered_ignored (st : WorkerState) (r : RegResponse)
    (net : String → FetchOutcome) (infer : InferenceCall → String) (now : String)
    (msgs : List InMsg) (hr : r.type ≠ "registered") (hk : st.worker_key = none) :
    register st (some r) = .ok st
    ∧ listen st.worker_key net infer now msgs
        = { emissions := [], fetched := [], outcome := .closed } := by
  refine ⟨?_, ?_⟩
  · have hreg : register st (some r)
        = if r.type = "registered" then
            Except.ok { worker_id := some r.worker_id, worker_key := some r.key }
          else Except.ok st := rfl
    rw [hreg, if_neg hr]
  · rw [hk]
    exact listen_none net infer now msgs

theorem C7_witness :
    (regBad.type ≠ "registered" ∧ st0.worker_key = none)
    ∧ (register st0 (some regBad) = .ok st0
      ∧ listen st0.worker_key net3 infer0 "t" msgs3
          = { emissions := [], fetched := [], outcome := .closed }) :=
  ⟨⟨by decide, by decide⟩,
   C7_unregistered_ignored st0 regBad net3 infer0 "t" msgs3 (by decide) (by decide)⟩

unseal Rat.mul Rat.inv Rat.add Rat.sub in
lemma temporal_context_10_5 :
    temporal_context 10 5 = "This video segment spans from 10.0s to 15.0s. " := by
  decide

/-- C8: for every startTime > 0 the preamble states that the segment spans
from startTime to startTime + durationSeconds with one-decimal precision;
concretely the preamble for (10, 5) names the span 10.0s to 15.0s; for
startTime = 0 the preamble is the empty string. -/
theorem C8_describe :
    (∀ s d : ℚ, 0 < s → temporal_context s d
        = "This video segment spans from " ++ fmt1 s ++ "s to "
          ++ fmt1 (s + d) ++ "s. ")
    ∧ temporal_context 10 5 = "This video segment spans from 10.0s to 15.0s. "
    ∧ ∀ d : ℚ, temporal_context 0 d = "" := by
  refine ⟨?_, temporal_context_10_5, ?_⟩
  · intro s d hs
    unfold temporal_context
    rw [if_pos hs]
  · intro d
    unfold temporal_context
    rw [if_neg (lt_irrefl 0)]

theorem C8_witness :
    (0:ℚ) < 10
    ∧ temporal_context 10 5
        = "This video segment spans from " ++ fmt1 10 ++ "s to "
          ++ fmt1 (10 + 5) ++ "s. " :=
  ⟨by norm_num, C8_describe.1 10 5 (by norm_num)⟩

/-- C9 counterexample: for a ten-frame batch with duration 45s whose metadata
lacks fps, the batch processor hands raw_fps = 2.0 to inference, not the
claim's (frameCount - 1) / durationSeconds = 9/45. -/
theorem C9_counterexample :
    (process_frame_batch_event netOk infer0 "t" ev9).toOption.map
        (fun p => p.1.raw_fps) = some 2
    ∧ (2 : ℚ) ≠ (10 - 1) / 45 := by
  refine ⟨by decide, by norm_num⟩

/-- C9 amended: the batch processor reads fps from the event metadata with
`metadata.get('fps', 2.0)`: an explicit fps is used verbatim with no
recomputation from frame count and duration, and a missing fps always yields
the fixed fallback 2.0 — the (frameCount - 1) / durationSeconds derivation
exists only in the standalone validation script, not in the batch processor. -/
theorem C9_fps_selection (net : String → FetchOutcome) (infer : InferenceCall → String)
    (now : String) (ev : FrameBatchEvent) (p : InferenceCall × Summary)
    (h : process_frame_batch_event net infer now ev = .ok p) :
    p.1.raw_fps = ev.metadata.fps.getD 2
    ∧ (∀ f, ev.metadata.fps = some f → p.1.raw_fps = f)
    ∧ (ev.metadata.fps = none → p.1.raw_fps = 2) := by
  unfold process_frame_batch_event at h
  by_cases hc : (fetchLoop net ev.frames).isEmpty
  · rw [if_pos hc] at h
    exact absurd h (by simp)
  · rw [if_neg hc] at h
    have hp : p = (processCall net ev, processSummary net infer now ev) :=
      (Except.ok.inj h).symm
    subst hp
    refine ⟨rfl, fun f hf => ?_, fun hf => ?_⟩
    · simp [processCall, hf]
    · simp [processCall, hf]

theorem C9_witness :
    process_frame_batch_event netOk infer0 "t" ev9 = .ok pair9
    ∧ (pair9.1.raw_fps = ev9.metadata.fps.getD 2
      ∧ (∀ f, ev9.metadata.fps = some f → pair9.1.raw_fps = f)
      ∧ (ev9.metadata.fps = none → pair9.1.raw_fps = 2)) :=
  ⟨by decide, C9_fps_selection netOk infer0 "t" ev9 pair9 (by decide)⟩

/-- C10: a frame fetch answered with HTTP 200 and a zero-byte body is a
successful download at the HTTP level (download_frame returns the empty
payload, not None), yet the batch loop drops the frame exactly as it drops a
failed fetch, because the keep-test is Python truthiness of the payload:
replacing such a response by a raised fetch error changes neither the
downloaded frame list nor the result of batch processing. -/
theorem C10_zero_byte_body (net : String → FetchOutcome) (u : String)
    (frames : List String) (infer : InferenceCall → String) (now : String)
    (ev : FrameBatchEvent)
    (h : net u = .response { status := 200, content := [] }) :
    download_frame (net u) = some []
    ∧ fetchLoop net frames = fetchLoop (fun v => if v = u then .error else net v) frames
    ∧ process_frame_batch_event net infer now ev
        = process_frame_batch_event (fun v => if v = u then .error else net v) infer now ev := by
  have hkept : ∀ v, keptFrame (net v)
      = keptFrame ((fun v => if v = u then .error else net v) v) := by
    intro v
    by_cases hv : v = u
    · subst hv
      rw [h]
      simp [keptFrame, download_frame]
    · simp [hv]
  have hfl : ∀ fr : List String, fetchLoop net fr
      = fetchLoop (fun v => if v = u then .error else net v) fr := by
    intro fr
    unfold fetchLoop
    exact List.filterMap_congr (fun a _ => hkept a)
  refine ⟨by rw [h]; rfl, hfl frames, ?_⟩
  have hpc : processCall net ev
      = processCall (fun v => if v = u then .error else net v) ev := by
    unfold processCall
    rw [hfl ev.frames]
  unfold process_frame_batch_event processSummary
  rw [hfl ev.frames, hpc]

theorem C10_witness :
    net10 "z" = .response { status := 200, content := [] }
    ∧ (download_frame (net10 "z") = some []
      ∧ fetchLoop net10 ev10.frames
          = fetchLoop (fun v => if v = "z" then .error else net10 v) ev10.frames
      ∧ process_frame_batch_event net10 infer0 "t" ev10
          = process_frame_batch_event (fun v => if v = "z" then .error else net10 v)
              infer0 "t" ev10) :=
  ⟨by decide, C10_zero_byte_body net10 "z" ev10.frames infer0 "t" ev10 (by decide)⟩

end Unblink



